import Mathlib

/-!
Shallow embedding of the `UsbSerialHelper` class (UsbSerialHelper.cpp /
UsbSerialHelper.h) and of the pending-device logic of `MainActivity.java`
from the qtserialportjenny repository.

JNI objects and Android services are modelled by an explicit environment:
a `QJniObject` handle is `Option _` (with `none` standing for an invalid,
default-constructed `QJniObject`), JNI calls that may throw are modelled
by boolean flags or `Except` results provided by the environment, and the
side effects of `openDevice` (requesting USB permission, calling
`port.open`, calling `port.setParameters`) are recorded in the returned
effects record.
-/

/-- The data of one `android.hardware.usb.UsbDevice` as read by the code:
`getDeviceName`, `getVendorId`, `getProductId`. -/
structure UsbDev where
  deviceName : String
  vendorId : Int
  productId : Int
  deriving DecidableEq

/-- One serial-port object of a driver (element of `driver.getPorts()`),
together with the behaviour of the JNI calls `open` and `setParameters`
on it: whether they throw a Java exception. -/
structure PortHandle where
  openThrows : Bool
  setParametersThrows : Bool
  deriving DecidableEq

/-- One driver object of the list returned by
`UsbSerialProber.findAllDrivers`, with everything the C++ code reads from
it: `getDevice()` (possibly an invalid object, hence `Option`), the
simple class name, `getPorts()` (each element possibly invalid), and the
answers of `usbManager.hasPermission` / `usbManager.openDevice` for its
device. -/
structure UsbDriver where
  usbDevice : Option UsbDev
  className : String
  ports : List (Option PortHandle)
  hasPermission : Bool
  connectionOk : Bool
  deriving DecidableEq

/-- The Android/JNI environment queried by the helper: availability of the
Qt native interface, validity of the context, the UsbManager service, the
prober and the driver list, the driver list itself, and the indeterminate
values of the uninitialised `int` fields of a default-constructed
`SerialDevice` (read only when a driver has an invalid `UsbDevice`). -/
structure AndroidEnv where
  nativeInterfaceOk : Bool
  contextValid : Bool
  usbManagerValid : Bool
  proberValid : Bool
  driverListValid : Bool
  drivers : List (Option UsbDriver)
  uninitVendorId : Int
  uninitProductId : Int
  deriving DecidableEq

/-- The record `UsbSerialHelper::SerialDevice` (UsbSerialHelper.h). -/
structure SerialDevice where
  deviceName : String
  driverName : String
  vendorId : Int
  productId : Int
  portCount : Int
  deriving DecidableEq

/-- The mutable state of a `UsbSerialHelper` object: exactly the two
private members `m_driver` and `m_port` (UsbSerialHelper.h). `none` is an
invalid (default-constructed) `QJniObject`. -/
structure HelperState where
  m_driver : Option UsbDriver
  m_port : Option PortHandle
  deriving DecidableEq

/-- The body of the per-driver loop iteration of
`UsbSerialHelper::getAvailableDevices`: fill a `SerialDevice` record from
a (valid) driver object. When the `getDevice()` result is invalid, the
C++ code leaves `deviceName` as the default empty `QString` and the two
`int` fields `vendorId` / `productId` uninitialised (modelled by the
environment values). -/
def driverToSerialDevice (env : AndroidEnv) (drv : UsbDriver) : SerialDevice :=
  match drv.usbDevice with
  | some d =>
      { deviceName := d.deviceName, driverName := drv.className,
        vendorId := d.vendorId, productId := d.productId,
        portCount := (drv.ports.length : Int) }
  | none =>
      { deviceName := "", driverName := drv.className,
        vendorId := env.uninitVendorId, productId := env.uninitProductId,
        portCount := (drv.ports.length : Int) }

/-- The scanning loop of `UsbSerialHelper::getAvailableDevices`: iterate
the driver list in order, `continue` past invalid driver objects, append
one record per valid driver. -/
def scanDrivers (env : AndroidEnv) : List (Option UsbDriver) → List SerialDevice
  | [] => []
  | none :: rest => scanDrivers env rest
  | some drv :: rest => driverToSerialDevice env drv :: scanDrivers env rest

/-- `UsbSerialHelper::getAvailableDevices` (UsbSerialHelper.cpp, lines
20-145): five guard checks, each returning the empty list built so far,
then the linear scan of the driver list. -/
def getAvailableDevices (env : AndroidEnv) : List SerialDevice :=
  if env.nativeInterfaceOk = false then []
  else if env.contextValid = false then []
  else if env.usbManagerValid = false then []
  else if env.proberValid = false then []
  else if env.driverListValid = false then []
  else scanDrivers env env.drivers

/-- `UsbSerialHelper::closeDevice` (UsbSerialHelper.cpp, lines 331-345):
if `m_port` is valid, call `close` (a thrown exception is caught and
cleared with no further effect) and reset `m_port`; always reset
`m_driver`. -/
def closeDevice (st : HelperState) : HelperState :=
  match st.m_port with
  | some _ => { m_driver := none, m_port := none }
  | none => { st with m_driver := none }

/-- The result of one `UsbSerialHelper::openDevice` call: the boolean
return value, the final state of the two member handles, and a record of
the observable effects (whether `requestPermission` ran, whether
`port.open` was invoked, with which arguments `port.setParameters` was
invoked and whether it completed without a Java exception). -/
structure OpenEffects where
  ret : Bool
  state : HelperState
  permissionRequested : Bool
  portOpenCalled : Bool
  setParametersArgs : Option (Int × Int × Int × Int)
  setParametersOk : Bool
  deriving DecidableEq

/-- `UsbSerialHelper::openDevice` (UsbSerialHelper.cpp, lines 190-329),
statement by statement. Note that `m_driver` is assigned from the list
before its validity check, and `m_port` is assigned before its validity
check and before the connection is opened, so failure paths can leave the
members holding the retrieved handles; on a `setParameters` exception the
code calls `closeDevice()`. -/
def openDevice (env : AndroidEnv) (st : HelperState)
    (deviceIndex portIndex baudRate : Int) : OpenEffects :=
  if env.nativeInterfaceOk = false then
    { ret := false, state := st, permissionRequested := false,
      portOpenCalled := false, setParametersArgs := none, setParametersOk := false }
  else if deviceIndex < 0 ∨ (env.drivers.length : Int) ≤ deviceIndex then
    { ret := false, state := st, permissionRequested := false,
      portOpenCalled := false, setParametersArgs := none, setParametersOk := false }
  else
    match env.drivers.getD deviceIndex.toNat none with
    | none =>
      { ret := false, state := { st with m_driver := none },
        permissionRequested := false, portOpenCalled := false,
        setParametersArgs := none, setParametersOk := false }
    | some drv =>
      if drv.hasPermission = false then
        { ret := false, state := { st with m_driver := some drv },
          permissionRequested := true, portOpenCalled := false,
          setParametersArgs := none, setParametersOk := false }
      else if portIndex < 0 ∨ (drv.ports.length : Int) ≤ portIndex then
        { ret := false, state := { st with m_driver := some drv },
          permissionRequested := false, portOpenCalled := false,
          setParametersArgs := none, setParametersOk := false }
      else
        match drv.ports.getD portIndex.toNat none with
        | none =>
          { ret := false, state := { m_driver := some drv, m_port := none },
            permissionRequested := false, portOpenCalled := false,
            setParametersArgs := none, setParametersOk := false }
        | some port =>
          if drv.connectionOk = false then
            { ret := false, state := { m_driver := some drv, m_port := some port },
              permissionRequested := false, portOpenCalled := false,
              setParametersArgs := none, setParametersOk := false }
          else if port.openThrows then
            { ret := false, state := { m_driver := some drv, m_port := some port },
              permissionRequested := false, portOpenCalled := true,
              setParametersArgs := none, setParametersOk := false }
          else if port.setParametersThrows then
            { ret := false,
              state := closeDevice { m_driver := some drv, m_port := some port },
              permissionRequested := false, portOpenCalled := true,
              setParametersArgs := some (baudRate, 8, 1, 0), setParametersOk := false }
          else
            { ret := true, state := { m_driver := some drv, m_port := some port },
              permissionRequested := false, portOpenCalled := true,
              setParametersArgs := some (baudRate, 8, 1, 0), setParametersOk := true }

/-- The behaviour of the opened port for the two blocking JNI calls used
by `readData` and `writeData`: `read` receives the buffer length and the
timeout and either throws or reports a byte count together with the
buffer contents after the call; `write` receives the data and the timeout
and either throws or reports the number of bytes written. -/
structure IoModel where
  read : Int → Int → Except Unit (Int × List Int)
  write : List Int → Int → Except Unit Int

/-- `UsbSerialHelper::readData` (UsbSerialHelper.cpp, lines 347-385):
empty result when the port member is invalid, when the driver read throws
a Java exception, or when the reported count is not positive; otherwise
the first `bytesRead` bytes of the buffer. The pair also returns the
(unchanged) member state. -/
def readData (st : HelperState) (io : IoModel) (maxLength timeoutMs : Int) :
    List Int × HelperState :=
  match st.m_port with
  | none => ([], st)
  | some _ =>
    match io.read maxLength timeoutMs with
    | Except.error _ => ([], st)
    | Except.ok (bytesRead, buf) =>
      if bytesRead ≤ 0 then ([], st)
      else (buf.take bytesRead.toNat, st)

/-- `UsbSerialHelper::writeData` (UsbSerialHelper.cpp, lines 387-424):
false when the port member is invalid, when the driver write throws, or
when the reported count differs from the size of the data; true exactly
otherwise. The pair also returns the (unchanged) member state. -/
def writeData (st : HelperState) (io : IoModel) (data : List Int) (timeoutMs : Int) :
    Bool × HelperState :=
  match st.m_port with
  | none => (false, st)
  | some _ =>
    match io.write data timeoutMs with
    | Except.error _ => (false, st)
    | Except.ok bytesWritten =>
      if bytesWritten ≠ (data.length : Int) then (false, st)
      else (true, st)

/-- The arguments (buffer length, timeout) that `readData` passes to the
blocking driver call `port.read`, read off UsbSerialHelper.cpp lines
356-364: the call happens exactly when the port member is valid and
forwards the callers `maxLength` and `timeoutMs`. -/
def readDataDriverCall (st : HelperState) (maxLength timeoutMs : Int) :
    Option (Int × Int) :=
  match st.m_port with
  | none => none
  | some _ => some (maxLength, timeoutMs)

/-- The arguments (data, timeout) that `writeData` passes to the blocking
driver call `port.write`, read off UsbSerialHelper.cpp lines 397-407. -/
def writeDataDriverCall (st : HelperState) (data : List Int) (timeoutMs : Int) :
    Option (List Int × Int) :=
  match st.m_port with
  | none => none
  | some _ => some (data, timeoutMs)

/-- Default argument `timeoutMs = 1000` of `readData` (UsbSerialHelper.h). -/
def readDataDefaultTimeoutMs : Int := 1000

/-- Default argument `maxLength = 1024` of `readData` (UsbSerialHelper.h). -/
def readDataDefaultMaxLength : Int := 1024

/-- Default argument `timeoutMs = 1000` of `writeData` (UsbSerialHelper.h). -/
def writeDataDefaultTimeoutMs : Int := 1000

/-- The constant arguments `(1024, 100)` that the polling timer in `main`
passes to `readData` (main.cpp, line 65). -/
def mainLoopReadArgs : Int × Int := (1024, 100)

/-! Concrete fixtures used by witnesses and counterexamples. -/

/-- A concrete attached USB device. -/
def dev0 : UsbDev :=
  { deviceName := "/dev/bus/usb/001/002", vendorId := 0x0403, productId := 0x6001 }

/-- A concrete port on which `open` and `setParameters` succeed. -/
def goodPort : PortHandle := { openThrows := false, setParametersThrows := false }

/-- A concrete driver with permission held, one good port, and a working
USB connection. -/
def goodDriver : UsbDriver :=
  { usbDevice := some dev0, className := "FtdiSerialDriver",
    ports := [some goodPort], hasPermission := true, connectionOk := true }

/-- The same driver, but the OS reports that USB permission is not held. -/
def noPermDriver : UsbDriver := { goodDriver with hasPermission := false }

/-- The same driver, but `usbManager.openDevice` fails (no connection). -/
def noConnDriver : UsbDriver := { goodDriver with connectionOk := false }

/-- An environment whose driver list holds exactly the given driver, with
all JNI lookups succeeding. -/
def envWith (d : UsbDriver) : AndroidEnv :=
  { nativeInterfaceOk := true, contextValid := true, usbManagerValid := true,
    proberValid := true, driverListValid := true, drivers := [some d],
    uninitVendorId := 0, uninitProductId := 0 }

/-- The freshly constructed helper state: both members invalid. -/
def st0 : HelperState := { m_driver := none, m_port := none }

/-- A helper state after a successful open of `goodDriver`. -/
def stOpen : HelperState := { m_driver := some goodDriver, m_port := some goodPort }

/-- A concrete port behaviour: reads report one byte `7`, writes report
the full length of the data. -/
def ioOk : IoModel :=
  { read := fun _ _ => Except.ok (1, [7]),
    write := fun data _ => Except.ok (data.length : Int) }

/-- A concrete port behaviour whose write always reports 0 bytes. -/
def ioShortWrite : IoModel :=
  { read := fun _ _ => Except.ok (1, [7]),
    write := fun _ _ => Except.ok 0 }

/-! Claim theorems. -/

/-- Claim C1: for every device index, port index and baud rate, when the
Qt native interface is present, the index selects a valid driver of the
list, and the OS reports that USB permission for that device is not held,
`openDevice` requests permission and returns false without ever invoking
`port.open`. -/
theorem openDevice_no_permission_requests_and_fails
    (env : AndroidEnv) (st : HelperState) (di pi br : Int) (drv : UsbDriver)
    (hni : env.nativeInterfaceOk = true)
    (hlo : 0 ≤ di) (hhi : di < (env.drivers.length : Int))
    (hdrv : env.drivers.getD di.toNat none = some drv)
    (hperm : drv.hasPermission = false) :
    (openDevice env st di pi br).permissionRequested = true ∧
    (openDevice env st di pi br).ret = false ∧
    (openDevice env st di pi br).portOpenCalled = false := by
  have hcond : ¬(di < 0 ∨ (env.drivers.length : Int) ≤ di) := by
    push_neg
    exact ⟨hlo, hhi⟩
  unfold openDevice
  rw [hni, hdrv]
  simp [hcond, hperm]

/-- Witness for C1: a concrete run against `noPermDriver`. -/
theorem openDevice_no_permission_requests_and_fails_witness :
    (openDevice (envWith noPermDriver) st0 0 0 9600).permissionRequested = true ∧
    (openDevice (envWith noPermDriver) st0 0 0 9600).ret = false ∧
    (openDevice (envWith noPermDriver) st0 0 0 9600).portOpenCalled = false :=
  openDevice_no_permission_requests_and_fails (envWith noPermDriver) st0 0 0 9600
    noPermDriver rfl (by decide) (by decide) rfl rfl

/-- Claim C2: when the port member is valid and the driver write reports
a byte count `n` (no exception), `writeData` returns true exactly when
`n` equals the size of the data, and in particular returns false whenever
the counts differ. -/
theorem writeData_true_iff_full_count
    (st : HelperState) (io : IoModel) (data : List Int) (t n : Int)
    (hopen : st.m_port.isSome = true)
    (hw : io.write data t = Except.ok n) :
    ((writeData st io data t).1 = true ↔ n = (data.length : Int)) ∧
    (n ≠ (data.length : Int) → (writeData st io data t).1 = false) := by
  obtain ⟨p, hp⟩ := Option.isSome_iff_exists.mp hopen
  unfold writeData
  rw [hp, hw]
  constructor
  · constructor
    · intro h
      by_contra hne
      simp [hne] at h
    · intro h
      simp [h]
  · intro hne
    simp [hne]

/-- Witness for C2: a mismatching count on a short write returns false,
and a full count returns true. -/
theorem writeData_true_iff_full_count_witness :
    ((writeData stOpen ioShortWrite [1, 2] 1000).1 = true ↔ (0 : Int) = 2) ∧
    ((0 : Int) ≠ 2 → (writeData stOpen ioShortWrite [1, 2] 1000).1 = false) :=
  writeData_true_iff_full_count stOpen ioShortWrite [1, 2] 1000 0 rfl rfl

/-- Claim C3: every failure is surfaced as a boolean false or an empty
result, never as a propagated exception (all embedded operations are
total functions). Concretely: `openDevice` returns true only when every
step succeeded, so any failure (missing native interface, out-of-range
or invalid driver index, missing permission, bad port, failed connection,
Java exception in `open` or `setParameters`) yields false; `writeData`
returns true only when the port is valid and the driver reported the full
count, so any failure yields false; `readData` returns a nonempty array
only when the port is valid and the driver reported a positive count, so
any failure yields the empty array; and `getAvailableDevices` returns the
(empty) list built so far when any of its guards fails. -/
theorem errors_surface_as_returns :
    (∀ (env : AndroidEnv) (st : HelperState) (di pi br : Int),
        (openDevice env st di pi br).ret = true →
        env.nativeInterfaceOk = true ∧
        ∃ drv, env.drivers.getD di.toNat none = some drv ∧
          drv.hasPermission = true ∧ drv.connectionOk = true ∧
          ∃ port, drv.ports.getD pi.toNat none = some port ∧
            port.openThrows = false ∧ port.setParametersThrows = false) ∧
    (∀ (st : HelperState) (io : IoModel) (data : List Int) (t : Int),
        (writeData st io data t).1 = true →
        st.m_port.isSome = true ∧ io.write data t = Except.ok ((data.length : Int))) ∧
    (∀ (st : HelperState) (io : IoModel) (ml t : Int),
        (readData st io ml t).1 ≠ [] →
        st.m_port.isSome = true ∧
        ∃ n buf, io.read ml t = Except.ok (n, buf) ∧ 0 < n) ∧
    (∀ env : AndroidEnv,
        env.nativeInterfaceOk = false ∨ env.contextValid = false ∨
        env.usbManagerValid = false ∨ env.proberValid = false ∨
        env.driverListValid = false →
        getAvailableDevices env = []) := by
  refine ⟨?_, ?_, ?_, ?_⟩
  · intro env st di pi br h
    unfold openDevice at h
    split at h
    · simp at h
    · split at h
      · simp at h
      · split at h
        · simp at h
        · next drv heq =>
          split at h
          · simp at h
          · next hperm =>
            split at h
            · simp at h
            · split at h
              · simp at h
              · next port hpeq =>
                split at h
                · simp at h
                · next hconn =>
                  split at h
                  · simp at h
                  · next hopen =>
                    split at h
                    · simp at h
                    · next hsp =>
                      refine ⟨by simp_all, drv, heq, by simpa using hperm,
                        by simpa using hconn, port, hpeq, by simpa using hopen,
                        by simpa using hsp⟩
  · intro st io data t h
    unfold writeData at h
    split at h
    · simp at h
    · next p hp =>
      split at h
      · simp at h
      · next n hw =>
        split at h
        · simp at h
        · next hne =>
          rw [hp, hw]
          simp_all
  · intro st io ml t h
    unfold readData at h
    split at h
    · simp at h
    · next p hp =>
      split at h
      · simp at h
      · next n buf hr =>
        split at h
        · simp at h
        · next hpos =>
          rw [hp, hr]
          exact ⟨rfl, n, buf, rfl, by omega⟩
  · intro env h
    unfold getAvailableDevices
    rcases h with h | h | h | h | h <;> simp [h]

/-- Witness for C3: concrete instantiations of all four components. -/
theorem errors_surface_as_returns_witness :
    ((envWith goodDriver).nativeInterfaceOk = true ∧
      ∃ drv, (envWith goodDriver).drivers.getD (Int.toNat 0) none = some drv ∧
        drv.hasPermission = true ∧ drv.connectionOk = true ∧
        ∃ port, drv.ports.getD (Int.toNat 0) none = some port ∧
          port.openThrows = false ∧ port.setParametersThrows = false) ∧
    (stOpen.m_port.isSome = true ∧
      ioOk.write [1, 2] 1000 = Except.ok ((([1, 2] : List Int).length : Int))) ∧
    (stOpen.m_port.isSome = true ∧
      ∃ n buf, ioOk.read 1024 100 = Except.ok (n, buf) ∧ 0 < n) ∧
    getAvailableDevices { envWith goodDriver with contextValid := false } = [] :=
  ⟨errors_surface_as_returns.1 (envWith goodDriver) st0 0 0 9600 (by decide),
   errors_surface_as_returns.2.1 stOpen ioOk [1, 2] 1000 (by decide),
   errors_surface_as_returns.2.2.1 stOpen ioOk 1024 100 (by decide),
   errors_surface_as_returns.2.2.2 { envWith goodDriver with contextValid := false }
     (Or.inr (Or.inl rfl))⟩

/-- Claim C4: whenever `openDevice` returns true, `setParameters` was
invoked with exactly the caller-supplied baud rate and the fixed
constants 8 data bits, 1 stop bit and parity 0 (none), and that call
completed without a Java exception before true was returned. -/
theorem openDevice_true_configures_parameters
    (env : AndroidEnv) (st : HelperState) (di pi br : Int)
    (h : (openDevice env st di pi br).ret = true) :
    (openDevice env st di pi br).setParametersArgs = some (br, 8, 1, 0) ∧
    (openDevice env st di pi br).setParametersOk = true := by
  unfold openDevice at h ⊢
  repeat' split at h <;> simp_all

/-- Witness for C4: a concrete successful open at 9600 baud. -/
theorem openDevice_true_configures_parameters_witness :
    (openDevice (envWith goodDriver) st0 0 0 9600).setParametersArgs =
      some (9600, 8, 1, 0) ∧
    (openDevice (envWith goodDriver) st0 0 0 9600).setParametersOk = true :=
  openDevice_true_configures_parameters (envWith goodDriver) st0 0 0 9600 (by decide)

/-- The serial-device entry the specification describes for one valid
driver of the list: the device name, vendor ID and product ID of the
device of that driver, its driver class name, and its port count.
Written from the words of the claim, to be compared with the
code-derived scan. -/
def specSerialEntry (drv : UsbDriver) : Option SerialDevice :=
  match drv.usbDevice with
  | some d =>
      some { deviceName := d.deviceName, driverName := drv.className,
             vendorId := d.vendorId, productId := d.productId,
             portCount := (drv.ports.length : Int) }
  | none => none

/-- The scanning loop agrees with the claim-side filterMap on every
driver list whose valid drivers expose a valid device. -/
lemma scanDrivers_eq_filterMap (env : AndroidEnv) (l : List (Option UsbDriver))
    (hdev : ∀ drv : UsbDriver, some drv ∈ l → drv.usbDevice.isSome = true) :
    scanDrivers env l = l.filterMap (fun o => o.bind specSerialEntry) := by
  induction l with
  | nil => rfl
  | cons hd tl ih =>
    cases hd with
    | none =>
      simpa [scanDrivers] using ih (fun drv hm => hdev drv (List.mem_cons_of_mem _ hm))
    | some drv =>
      have hs : drv.usbDevice.isSome = true := hdev drv (List.mem_cons_self _ _)
      obtain ⟨d, hdd⟩ := Option.isSome_iff_exists.mp hs
      simp [scanDrivers, driverToSerialDevice, specSerialEntry, hdd,
        ih (fun drv hm => hdev drv (List.mem_cons_of_mem _ hm))]

/-- Claim C5: when the five JNI lookups succeed and every valid driver of
the prober list carries a valid device, `getAvailableDevices` is exactly
the linear scan of the driver list: one entry per valid driver, in list
order, holding the device name, driver class name, vendor ID, product ID
and port count of that driver, with invalid drivers skipped. -/
theorem getAvailableDevices_linear_scan (env : AndroidEnv)
    (h1 : env.nativeInterfaceOk = true) (h2 : env.contextValid = true)
    (h3 : env.usbManagerValid = true) (h4 : env.proberValid = true)
    (h5 : env.driverListValid = true)
    (hdev : ∀ drv : UsbDriver, some drv ∈ env.drivers → drv.usbDevice.isSome = true) :
    getAvailableDevices env =
      env.drivers.filterMap (fun o => o.bind specSerialEntry) := by
  unfold getAvailableDevices
  rw [h1, h2, h3, h4, h5]
  simpa using scanDrivers_eq_filterMap env env.drivers hdev

/-- Witness for C5: a concrete scan over a one-driver list. -/
theorem getAvailableDevices_linear_scan_witness :
    getAvailableDevices (envWith goodDriver) =
      (envWith goodDriver).drivers.filterMap (fun o => o.bind specSerialEntry) :=
  getAvailableDevices_linear_scan (envWith goodDriver) rfl rfl rfl rfl rfl
    (by
      intro drv hm
      simp [envWith] at hm
      subst hm
      rfl)

/-- Counterexample to C6 as stated: a failed `openDevice` (here the USB
connection cannot be opened) leaves the helper holding a valid port
handle even though `port.open` was never invoked — a state that is
neither the closed state nor a successfully opened one. -/
theorem openDevice_failure_leaves_port_handle :
    (openDevice (envWith noConnDriver) st0 0 0 9600).ret = false ∧
    (openDevice (envWith noConnDriver) st0 0 0 9600).state.m_port = some goodPort ∧
    (openDevice (envWith noConnDriver) st0 0 0 9600).state.m_driver =
      some noConnDriver ∧
    (openDevice (envWith noConnDriver) st0 0 0 9600).portOpenCalled = false := by
  decide

/-- Claim C6 amended: `closeDevice` always restores the closed state
(both handles invalid) and a successful `openDevice` leaves the open
state (both handles valid); but a failed `openDevice` need not leave the
closed state — it can leave the helper holding driver and port handles
assigned during the attempt, including a port handle that was never
successfully opened. -/
theorem helper_state_machine_amended :
    (∀ st : HelperState,
        (closeDevice st).m_driver = none ∧ (closeDevice st).m_port = none) ∧
    (∀ (env : AndroidEnv) (st : HelperState) (di pi br : Int),
        (openDevice env st di pi br).ret = true →
        (openDevice env st di pi br).state.m_port.isSome = true ∧
        (openDevice env st di pi br).state.m_driver.isSome = true) ∧
    (∃ (env : AndroidEnv) (st : HelperState) (di pi br : Int),
        (openDevice env st di pi br).ret = false ∧
        (openDevice env st di pi br).state.m_port.isSome = true ∧
        (openDevice env st di pi br).portOpenCalled = false) := by
  refine ⟨?_, ?_, ?_⟩
  · intro st
    rcases st with ⟨d, p⟩
    cases p <;> simp [closeDevice]
  · intro env st di pi br h
    unfold openDevice at h ⊢
    repeat' split at h <;> simp_all
  · exact ⟨envWith noConnDriver, st0, 0, 0, 9600, by decide, by decide, by decide⟩

/-- Witness for C6 (amended): a concrete close and a concrete successful
open. -/
theorem helper_state_machine_amended_witness :
    (closeDevice stOpen).m_driver = none ∧ (closeDevice stOpen).m_port = none ∧
    (openDevice (envWith goodDriver) st0 0 0 9600).state.m_port.isSome = true :=
  ⟨(helper_state_machine_amended.1 stOpen).1,
   (helper_state_machine_amended.1 stOpen).2,
   (helper_state_machine_amended.2.1 (envWith goodDriver) st0 0 0 9600 (by decide)).1⟩

/-- Claim C7: the helper object carries no mutable state beyond the two
member handles (HelperState mirrors the private section of
UsbSerialHelper.h verbatim), and `readData` and `writeData` leave both
handles unchanged for every input and every driver response; among the
embedded operations only `openDevice` and `closeDevice` produce a
modified state. -/
theorem readData_writeData_preserve_state :
    ∀ (st : HelperState) (io : IoModel) (ml t : Int) (data : List Int) (wt : Int),
      (readData st io ml t).2 = st ∧ (writeData st io data wt).2 = st := by
  intro st io ml t data wt
  constructor
  · unfold readData
    repeat' split
    all_goals rfl
  · unfold writeData
    repeat' split
    all_goals rfl

/-- Counterexample to C8 as stated: the timeout handed to the blocking
driver read is whatever timeoutMs the caller supplied, not a fixed
constant — two invocations that differ only in timeoutMs hand different
timeouts to the driver. -/
theorem read_timeout_not_fixed :
    readDataDriverCall stOpen 1024 100 = some (1024, 100) ∧
    readDataDriverCall stOpen 1024 1000 = some (1024, 1000) ∧
    (100 : Int) ≠ 1000 := by
  refine ⟨rfl, rfl, by decide⟩

/-- Claim C8 amended: whenever the port is valid, `readData` and
`writeData` forward the timeoutMs argument of the caller unchanged to
the blocking driver call; the fixed values live at the boundaries — the
declared defaults are 1000 ms (and 1024 bytes for reads), and the
polling loop of main always reads with the constant arguments
(1024, 100). -/
theorem io_timeouts_passthrough_and_defaults :
    (∀ (st : HelperState) (ml t : Int), st.m_port.isSome = true →
        readDataDriverCall st ml t = some (ml, t)) ∧
    (∀ (st : HelperState) (data : List Int) (t : Int), st.m_port.isSome = true →
        writeDataDriverCall st data t = some (data, t)) ∧
    readDataDefaultTimeoutMs = 1000 ∧ writeDataDefaultTimeoutMs = 1000 ∧
    readDataDefaultMaxLength = 1024 ∧ mainLoopReadArgs = (1024, 100) := by
  refine ⟨?_, ?_, rfl, rfl, rfl, rfl⟩
  · intro st ml t h
    obtain ⟨p, hp⟩ := Option.isSome_iff_exists.mp h
    unfold readDataDriverCall
    rw [hp]
  · intro st data t h
    obtain ⟨p, hp⟩ := Option.isSome_iff_exists.mp h
    unfold writeDataDriverCall
    rw [hp]

/-- Witness for C8 (amended): concrete pass-through of two different
timeouts on an open port. -/
theorem io_timeouts_passthrough_and_defaults_witness :
    readDataDriverCall stOpen 1024 250 = some (1024, 250) ∧
    writeDataDriverCall stOpen [1, 2] 1000 = some ([1, 2], 1000) :=
  ⟨io_timeouts_passthrough_and_defaults.1 stOpen 1024 250 rfl,
   io_timeouts_passthrough_and_defaults.2.1 stOpen [1, 2] 1000 rfl⟩

/-- Claim C9: `closeDevice` is total and idempotent — after any single
call both handles are invalid, a second call leaves the state unchanged,
and calling it on the closed state is safe and keeps both handles
invalid. -/
theorem closeDevice_idempotent_total :
    ∀ st : HelperState,
      (closeDevice st).m_port = none ∧ (closeDevice st).m_driver = none ∧
      closeDevice (closeDevice st) = closeDevice st ∧
      closeDevice { m_driver := none, m_port := none } =
        { m_driver := none, m_port := none } := by
  intro st
  rcases st with ⟨d, p⟩
  cases p <;> simp [closeDevice]

/-- The static state of MainActivity.java relevant to USB attach
notifications: whether an activity instance exists (`instance` non-null),
the stored pending device, and whether Qt has finished initialising. -/
structure ActivityState where
  instancePresent : Bool
  pendingDevice : Option UsbDev
  qtInitialized : Bool
  deriving DecidableEq

/-- The part of an `android.content.Intent` the handler reads: the
action string (possibly null) and the EXTRA_DEVICE parcelable (possibly
null). -/
structure AndroidIntent where
  action : Option String
  extraDevice : Option UsbDev
  deriving DecidableEq

/-- The Android constant `UsbManager.ACTION_USB_DEVICE_ATTACHED`. -/
def ACTION_USB_DEVICE_ATTACHED : String :=
  "android.hardware.usb.action.USB_DEVICE_ATTACHED"

/-- `MainActivity.handleUsbIntent` (MainActivity.java, lines 37-48); the
`isSerial` oracle models `UsbSerialProber.probeDevice` returning a
non-null driver. Returns the new static state together with the list of
devices passed to `notifyUsbDeviceAttached` during the call. -/
def handleUsbIntent (isSerial : UsbDev → Bool) (st : ActivityState)
    (intent : AndroidIntent) : ActivityState × List UsbDev :=
  if intent.action = some ACTION_USB_DEVICE_ATTACHED then
    match intent.extraDevice with
    | some device =>
      if isSerial device then
        if st.qtInitialized then (st, [device])
        else ({ st with pendingDevice := some device }, [])
      else (st, [])
    | none => (st, [])
  else (st, [])

/-- `MainActivity.onQtInitialized` (MainActivity.java, lines 50-56):
mark Qt initialised, then deliver and clear the pending device when both
it and the activity instance exist. -/
def onQtInitialized (st : ActivityState) : ActivityState × List UsbDev :=
  match st.pendingDevice with
  | some d =>
    if st.instancePresent then
      ({ st with qtInitialized := true, pendingDevice := none }, [d])
    else ({ st with qtInitialized := true }, [])
  | none => ({ st with qtInitialized := true }, [])

/-- Claim C10: while the activity instance exists, a serial device
attached before Qt initialisation is stored as the pending device
instead of being notified; `onQtInitialized` then delivers exactly that
device once and resets the pending device to null, a repeated
`onQtInitialized` delivers nothing further, and a device attached after
initialisation is notified immediately with the state left unchanged
(never stored). -/
theorem pending_device_notified_once
    (isSerial : UsbDev → Bool) (st : ActivityState) (intent : AndroidIntent)
    (d : UsbDev)
    (hinit : st.qtInitialized = false) (hinst : st.instancePresent = true)
    (hact : intent.action = some ACTION_USB_DEVICE_ATTACHED)
    (hdev : intent.extraDevice = some d) (hser : isSerial d = true) :
    ((handleUsbIntent isSerial st intent).2 = [] ∧
      (handleUsbIntent isSerial st intent).1.pendingDevice = some d) ∧
    ((onQtInitialized (handleUsbIntent isSerial st intent).1).2 = [d] ∧
      (onQtInitialized (handleUsbIntent isSerial st intent).1).1.pendingDevice = none ∧
      (onQtInitialized (handleUsbIntent isSerial st intent).1).1.qtInitialized = true) ∧
    (onQtInitialized
        (onQtInitialized (handleUsbIntent isSerial st intent).1).1).2 = [] ∧
    (∀ (st2 : ActivityState) (intent2 : AndroidIntent) (d2 : UsbDev),
        st2.qtInitialized = true →
        intent2.action = some ACTION_USB_DEVICE_ATTACHED →
        intent2.extraDevice = some d2 → isSerial d2 = true →
        handleUsbIntent isSerial st2 intent2 = (st2, [d2])) := by
  have h1 : handleUsbIntent isSerial st intent =
      ({ st with pendingDevice := some d }, []) := by
    unfold handleUsbIntent
    rw [hact, hdev]
    simp [hser, hinit]
  have h2 : onQtInitialized { st with pendingDevice := some d } =
      ({ st with qtInitialized := true, pendingDevice := none }, [d]) := by
    unfold onQtInitialized
    simp [hinst]
  have h3 : onQtInitialized { st with qtInitialized := true, pendingDevice := none } =
      ({ st with qtInitialized := true, pendingDevice := none }, []) := by
    unfold onQtInitialized
    simp
  refine ⟨?_, ?_, ?_, ?_⟩
  · rw [h1]
    exact ⟨rfl, rfl⟩
  · simp [h1, h2]
  · simp [h1, h2, h3]
  · intro st2 intent2 d2 h2init h2act h2dev h2ser
    unfold handleUsbIntent
    rw [h2act, h2dev]
    simp [h2ser, h2init]

/-- Witness for C10: a concrete attach-before-init followed by
initialisation. -/
theorem pending_device_notified_once_witness :
    (handleUsbIntent (fun _ => true)
        { instancePresent := true, pendingDevice := none, qtInitialized := false }
        { action := some ACTION_USB_DEVICE_ATTACHED, extraDevice := some dev0 }).2 =
      [] ∧
    (onQtInitialized
        (handleUsbIntent (fun _ => true)
          { instancePresent := true, pendingDevice := none, qtInitialized := false }
          { action := some ACTION_USB_DEVICE_ATTACHED,
            extraDevice := some dev0 }).1).2 = [dev0] :=
  ⟨(pending_device_notified_once (fun _ => true)
      { instancePresent := true, pendingDevice := none, qtInitialized := false }
      { action := some ACTION_USB_DEVICE_ATTACHED, extraDevice := some dev0 }
      dev0 rfl rfl rfl rfl rfl).1.1,
   (pending_device_notified_once (fun _ => true)
      { instancePresent := true, pendingDevice := none, qtInitialized := false }
      { action := some ACTION_USB_DEVICE_ATTACHED, extraDevice := some dev0 }
      dev0 rfl rfl rfl rfl rfl).2.1.1⟩
